import Mathlib

/-!
Shallow embedding of the contact-intake pipeline of the micii-campioni
repository: the contact POST handler (two versions: src/app/api/contact/route.ts
and the tracking-enabled variant in part_007), its in-memory sliding-window
rate limiter, field validation, HTML sanitization, the outbound email request,
and the Facebook Conversions API client (src/lib/facebook/conversions-api.ts).

JavaScript strings are modelled as Lean String (length = number of characters;
the source only measures lengths, so UTF-16 code-unit subtleties are immaterial
to the claims). JavaScript string truthiness (empty string is falsy) is modelled
explicitly. The JS Map of the rate limiter is modelled as an association list in
insertion order, matching JS Map iteration semantics.
-/

namespace Micii

/-- Truthiness of an optional JS string: undefined and the empty string are falsy. -/
def strTruthy : Option String → Bool
  | none => false
  | some s => !s.isEmpty

/-- Model of the JSON body accepted by the contact endpoint. Required string
fields absent from the JSON behave like the empty string (both are falsy and
validation rejects both the same way). Optional fields are Option. The extra
tracking fields exist only in the part_007 variant; route.ts ignores them. -/
structure ContactFormData where
  name : String
  email : String
  phone : Option String := none
  service : Option String := none
  message : String
  website : Option String := none
  utm_source : Option String := none
  utm_medium : Option String := none
  utm_campaign : Option String := none
  utm_term : Option String := none
  utm_content : Option String := none
  fbc : Option String := none
  fbp : Option String := none
  pageUrl : Option String := none
  eventId : Option String := none
deriving Repr, DecidableEq

/-! ## Rate limiting (identical code in route.ts lines 27-56 and part_007 lines 38-67) -/

def RATE_LIMIT_WINDOW_MS : Int := 15 * 60 * 1000

def RATE_LIMIT_MAX : Nat := 5

/-- The rate-limit map: ip to recorded timestamps, in insertion order. -/
abbrev RateLimitMap := List (String × List Int)

/-- Map.get(ip) with the ?? [] fallback. -/
def mapGet (m : RateLimitMap) (ip : String) : List Int :=
  match m.find? (fun p => p.1 == ip) with
  | some p => p.2
  | none => []

/-- Map.set(ip, v): update in place when the key exists, else append (JS Map
preserves insertion order and set on an existing key keeps its position). -/
def mapSet (m : RateLimitMap) (ip : String) (v : List Int) : RateLimitMap :=
  if m.any (fun p => p.1 == ip) then
    m.map (fun p => if p.1 == ip then (p.1, v) else p)
  else
    m ++ [(ip, v)]

/-- Predicate of the inline cleanup: an entry is evicted when every timestamp is
outside the window; kept entries are those with some timestamp still inside. -/
def keepEntry (now : Int) (p : String × List Int) : Bool :=
  !(p.2.all (fun t => RATE_LIMIT_WINDOW_MS ≤ now - t))

/-- isRateLimited, with Date.now() passed in as the parameter now. Returns the
boolean result and the rate-limit map after the call. -/
def isRateLimited (ip : String) (now : Int) (m : RateLimitMap) : Bool × RateLimitMap :=
  let timestamps := mapGet m ip
  let recent := timestamps.filter (fun t => now - t < RATE_LIMIT_WINDOW_MS)
  if RATE_LIMIT_MAX ≤ recent.length then
    (true, m)
  else
    let m1 := mapSet m ip (recent ++ [now])
    let m2 := if 1000 < m1.length then m1.filter (keepEntry now) else m1
    (false, m2)

/-! ## Service label lookup -/

def SERVICE_LABELS (key : String) : Option String :=
  if key == "cursuri-prenatale" then some "Cursuri Prenatale Lamaze"
  else if key == "inot-bebelusi" then some "Înot Bebeluși (0-3 ani)"
  else if key == "inot-copii" then some "Înot Copii (3-12 ani)"
  else if key == "kinetoterapie" then some "Kinetoterapie Pediatrică"
  else if key == "consultatie" then some "Consultație Generală"
  else if key == "altele" then some "Altele"
  else none

/-! ## stripHtml

The source is str.replace with the global regex matching a '<', any run of
characters other than '>', and a '>'. A match therefore always spans from a '<'
to the first '>' after it, and the global replace deletes every such
non-overlapping span scanning left to right. The scanner below is that
procedure: outside a span characters are emitted; a '<' opens a span, buffering
what follows; a '>' closes and discards the span; a span left open at the end
of the string never matched, so its buffered characters are emitted unchanged. -/

def stripHtmlGo : List Char → Option (List Char) → List Char
  | [], none => []
  | [], some buf => buf.reverse
  | c :: rest, none =>
      if c = '<' then stripHtmlGo rest (some [c])
      else c :: stripHtmlGo rest none
  | c :: rest, some buf =>
      if c = '>' then stripHtmlGo rest none
      else stripHtmlGo rest (some (c :: buf))

def stripHtmlList (cs : List Char) : List Char :=
  stripHtmlGo cs none

def stripHtml (s : String) : String :=
  String.mk (stripHtmlList s.toList)

/-- Model of JS String.prototype.trim: whitespace removed from both ends
(written over the character list so that it evaluates in the kernel). -/
def jsTrim (s : String) : String :=
  String.mk (((s.toList.dropWhile Char.isWhitespace).reverse.dropWhile
    Char.isWhitespace).reverse)

/-- Existence of a substring still matching the tag regex: a '<' with some '>'
strictly after it (if such a pair exists, the segment from that '<' to the
first later '>' is a match; and every match yields such a pair). -/
def containsTag : List Char → Bool
  | [] => false
  | c :: rest => (c == '<' && rest.contains '>') || containsTag rest

/-! ## redact (logging helper; modelled for completeness) -/

def redact : Option String → String
  | none => "(empty)"
  | some v =>
      if v.isEmpty then "(empty)"
      else if v.length ≤ 3 then "***"
      else (v.take 3) ++ "***"

/-! ## Validation (identical code in route.ts lines 91-123 and part_007 lines 208-240) -/

def MAX_NAME : Nat := 200
def MAX_EMAIL : Nat := 254
def MAX_PHONE : Nat := 30
def MAX_MESSAGE : Nat := 5000

/-- Character class of the email regex: anything but whitespace and the at sign. -/
def okChar (c : Char) : Bool :=
  !c.isWhitespace && c != '@'

/-- Test of the anchored regex: one run of ok characters, an at sign, a run of
ok characters, a dot, a run of ok characters, covering the whole string. The
test searches all positions i (the at sign) and j (the dot) of a witness
decomposition; this is exactly the language of the anchored pattern. -/
def emailRegexTest (s : String) : Bool :=
  let cs := s.toList
  let n := cs.length
  (List.range n).any (fun i =>
    (List.range n).any (fun j =>
      decide (1 ≤ i) && decide (i + 2 ≤ j) && decide (j + 2 ≤ n) &&
      (cs.getD i ' ' == '@') && (cs.getD j ' ' == '.') &&
      ((cs.take i).all okChar) &&
      (((cs.drop (i + 1)).take (j - i - 1)).all okChar) &&
      ((cs.drop (j + 1)).all okChar)))

def validate (data : ContactFormData) : Option String :=
  if data.name.isEmpty || data.email.isEmpty || data.message.isEmpty then
    some "Toate câmpurile obligatorii trebuie completate."
  else if MAX_NAME < data.name.length then
    some "Numele nu poate depăși 200 de caractere."
  else if MAX_EMAIL < data.email.length then
    some "Emailul nu poate depăși 254 de caractere."
  else if !emailRegexTest data.email then
    some "Adresa de email nu este validă."
  else if strTruthy data.phone && decide (MAX_PHONE < (data.phone.getD "").length) then
    some "Numărul de telefon nu poate depăși 30 de caractere."
  else if MAX_MESSAGE < data.message.length then
    some "Mesajul nu poate depăși 5000 de caractere."
  else
    none

/-! ## Environment variables read by the pipeline. An unset variable is none;
JS falsiness makes the empty string behave like unset wherever a || default
is applied. -/

structure Env where
  CONTACT_EMAIL_TO : Option String := none
  CONTACT_EMAIL_FROM : Option String := none
  NEXT_PUBLIC_SITE_URL : Option String := none
  FB_PIXEL_ID : Option String := none
  FB_ACCESS_TOKEN : Option String := none

/-- JS expression o || d for an optional string o and default d. -/
def jsOr (o : Option String) (d : String) : String :=
  if strTruthy o then o.getD "" else d

/-! ## Facebook Conversions API client (src/lib/facebook/conversions-api.ts)

The sha256 digest of hashData is not reimplemented: it is an injective
byte-level hash irrelevant to every claim, so it is passed in as an abstract
function sha applied after the toLowerCase and trim of the source. -/

structure UserData where
  email : Option String := none
  phone : Option String := none
  firstName : Option String := none
  lastName : Option String := none
  city : Option String := none
  country : Option String := none
  clientIpAddress : Option String := none
  clientUserAgent : Option String := none
  fbc : Option String := none
  fbp : Option String := none

structure CustomData where
  content_name : Option String := none
  content_category : Option String := none
  value : Option Int := none
  currency : Option String := none
  service : Option String := none
deriving Repr, DecidableEq

structure ServerEvent where
  event_name : String
  event_time : Int
  event_id : String
  event_source_url : String
  action_source : String
  user_data : List (String × String)
  custom_data : Option CustomData
deriving Repr

def hashData (sha : String → String) (data : String) : String :=
  sha data.toLower.trim

def normalizePhone (phone : String) : String :=
  let cleaned := String.mk (phone.toList.filter Char.isDigit)
  if cleaned.startsWith "0" then "40" ++ (cleaned.drop 1) else cleaned

/-- Builds the hashed user_data record, keys in the insertion order of the
source; each field is included only when truthy. -/
def prepareUserData (sha : String → String) (u : UserData) : List (String × String) :=
  (if strTruthy u.email then [("em", hashData sha (u.email.getD ""))] else []) ++
  (if strTruthy u.phone then [("ph", hashData sha (normalizePhone (u.phone.getD "")))] else []) ++
  (if strTruthy u.firstName then [("fn", hashData sha (u.firstName.getD ""))] else []) ++
  (if strTruthy u.lastName then [("ln", hashData sha (u.lastName.getD ""))] else []) ++
  (if strTruthy u.city then [("ct", hashData sha (u.city.getD ""))] else []) ++
  (if strTruthy u.country then [("country", hashData sha (u.country.getD ""))] else []) ++
  (if strTruthy u.clientIpAddress then [("client_ip_address", u.clientIpAddress.getD "")] else []) ++
  (if strTruthy u.clientUserAgent then [("client_user_agent", u.clientUserAgent.getD "")] else []) ++
  (if strTruthy u.fbc then [("fbc", u.fbc.getD "")] else []) ++
  (if strTruthy u.fbp then [("fbp", u.fbp.getD "")] else [])

structure SendServerEventArgs where
  eventName : String
  eventSourceUrl : String
  userData : UserData
  customData : Option CustomData := none
  eventId : Option String := none

/-- Models sendServerEvent up to the point of the outbound fetch: returns the
event posted to the graph endpoint, or none when the call is skipped because
the pixel id or the access token is not configured. Date.now() is the
parameter nowMs; Math.random().toString(36).slice(2, 11) is the parameter
rand. The event id is the supplied eventId when truthy, else the generated
eventName_eventTime_rand string. -/
def sendServerEvent (env : Env) (sha : String → String) (nowMs : Int) (rand : String)
    (args : SendServerEventArgs) : Option ServerEvent :=
  if !(strTruthy env.FB_PIXEL_ID) then none
  else if !(strTruthy env.FB_ACCESS_TOKEN) then none
  else
    let eventTime := Int.fdiv nowMs 1000
    let finalEventId :=
      if strTruthy args.eventId then args.eventId.getD ""
      else args.eventName ++ "_" ++ toString eventTime ++ "_" ++ rand
    some {
      event_name := args.eventName
      event_time := eventTime
      event_id := finalEventId
      event_source_url := args.eventSourceUrl
      action_source := "website"
      user_data := prepareUserData sha args.userData
      custom_data := args.customData }

structure TrackLeadArgs where
  email : String
  phone : Option String := none
  name : Option String := none
  service : Option String := none
  sourceUrl : String
  clientIp : Option String := none
  userAgent : Option String := none
  fbc : Option String := none
  fbp : Option String := none
  eventId : Option String := none

def trackLead (env : Env) (sha : String → String) (nowMs : Int) (rand : String)
    (a : TrackLeadArgs) : Option ServerEvent :=
  let nameParts : List String :=
    match a.name with
    | none => []
    | some n => n.splitOn " "
  let firstName : Option String := nameParts.head?
  let lastName : Option String :=
    let joined := String.intercalate " " (nameParts.drop 1)
    if joined.isEmpty then none else some joined
  sendServerEvent env sha nowMs rand {
    eventName := "Lead"
    eventSourceUrl := a.sourceUrl
    userData := {
      email := some a.email
      phone := a.phone
      firstName := firstName
      lastName := lastName
      city := some "Bucuresti"
      country := some "RO"
      clientIpAddress := a.clientIp
      clientUserAgent := a.userAgent
      fbc := a.fbc
      fbp := a.fbp }
    customData := some {
      content_name := some "Contact Form Submission"
      content_category := some (jsOr a.service "General Inquiry")
      service := a.service }
    eventId := a.eventId }

/-! ## Sanitization and email construction -/

structure SanitizedFields where
  name : String
  email : String
  phone : Option String
  service : Option String
  message : String
deriving Repr, DecidableEq

/-- The sanitized record built by both handlers: every text field is stripped
of HTML tags and trimmed; service is first looked up in SERVICE_LABELS (the ??
fallback strips and trims the raw value only when the key is unknown). -/
def sanitize (body : ContactFormData) : SanitizedFields where
  name := jsTrim (stripHtml body.name)
  email := jsTrim (stripHtml body.email)
  phone :=
    if strTruthy body.phone then some (jsTrim (stripHtml (body.phone.getD ""))) else none
  service :=
    if strTruthy body.service then
      some ((SERVICE_LABELS (body.service.getD "")).getD (jsTrim (stripHtml (body.service.getD ""))))
    else none
  message := jsTrim (stripHtml body.message)

/-- JS message.replace with the global newline regex. -/
def newlinesToBr (s : String) : String :=
  s.replace "\n" "<br />"

/-- The inline email template of route.ts (lines 182-190). -/
def routeEmailHtml (f : SanitizedFields) : String :=
  "\n        <h2>Mesaj nou de pe site</h2>\n        <p><strong>Nume:</strong> "
  ++ f.name ++ "</p>\n        <p><strong>Email:</strong> " ++ f.email ++ "</p>\n        "
  ++ (if strTruthy f.phone then "<p><strong>Telefon:</strong> " ++ f.phone.getD "" ++ "</p>" else "")
  ++ "\n        "
  ++ (if strTruthy f.service then "<p><strong>Serviciu:</strong> " ++ f.service.getD "" ++ "</p>" else "")
  ++ "\n        <hr />\n        <p>" ++ newlinesToBr f.message ++ "</p>\n      "

/-! Email template of part_007 (buildContactEmailHtml, lines 110-202). -/

def emailRow (label : String) (content : String) : String :=
  "\n    <tr>\n      <td style=\"padding:12px 0;border-bottom:1px solid #e7e5e4;\">\n        <span style=\"display:block;font-size:11px;text-transform:uppercase;letter-spacing:0.05em;color:#78716c;margin-bottom:4px;\">"
  ++ label ++ "</span>\n        " ++ content ++ "\n      </td>\n    </tr>"

def emailTextValue (v : String) : String :=
  "<span style=\"font-size:15px;color:#1c1917;\">" ++ v ++ "</span>"

def emailLinkValue (href : String) (v : String) : String :=
  "<a href=\"" ++ href ++ "\" style=\"font-size:15px;color:#0d9488;text-decoration:none;\">" ++ v ++ "</a>"

def buildContactEmailHtml (f : SanitizedFields) : String :=
  let preheader := "Mesaj de la " ++ f.name
    ++ (if strTruthy f.service then " — " ++ f.service.getD "" else "")
  let contactRows := String.join [
    emailRow "Nume" (emailTextValue f.name),
    emailRow "Email" (emailLinkValue ("mailto:" ++ f.email) f.email),
    (if strTruthy f.phone then
      emailRow "Telefon" (emailLinkValue ("tel:" ++ f.phone.getD "") (f.phone.getD ""))
    else ""),
    (if strTruthy f.service then emailRow "Serviciu" (emailTextValue (f.service.getD "")) else "")]
  "<!DOCTYPE html>\n<html lang=\"ro\" xmlns=\"http://www.w3.org/1999/xhtml\" xmlns:v=\"urn:schemas-microsoft-com:vml\" xmlns:o=\"urn:schemas-microsoft-com:office:office\">\n<head>\n  <meta charset=\"utf-8\" />\n  <meta name=\"viewport\" content=\"width=device-width,initial-scale=1.0\" />\n  <meta name=\"color-scheme\" content=\"light\" />\n  <meta name=\"supported-color-schemes\" content=\"light\" />\n  <!--[if mso]><xml><o:OfficeDocumentSettings><o:PixelsPerInch>96</o:PixelsPerInch></o:OfficeDocumentSettings></xml><![endif]-->\n</head>\n<body style=\"margin:0;padding:0;background-color:#f5f0eb;font-family:Arial,Helvetica,sans-serif;-webkit-text-size-adjust:100%;-ms-text-size-adjust:100%;\">\n  <!-- Preheader (hidden inbox preview text) -->\n  <div style=\"display:none;max-height:0;overflow:hidden;\">"
  ++ preheader ++ String.join (List.replicate 20 "&nbsp;&zwnj;")
  ++ "</div>\n\n  <table role=\"presentation\" width=\"100%\" cellpadding=\"0\" cellspacing=\"0\" border=\"0\" style=\"background-color:#f5f0eb;\">\n    <tr><td style=\"padding:32px 16px;\" align=\"center\">\n      <!--[if mso]><table role=\"presentation\" cellpadding=\"0\" cellspacing=\"0\" border=\"0\" width=\"600\"><tr><td><![endif]-->\n      <table role=\"presentation\" cellpadding=\"0\" cellspacing=\"0\" border=\"0\" style=\"max-width:600px;width:100%;background-color:#ffffff;border-radius:8px;overflow:hidden;\">\n        <!-- Header -->\n        <tr>\n          <td style=\"background-color:#0d9488;padding:24px 32px;\">\n            <h1 style=\"margin:0;font-size:20px;font-weight:700;color:#ffffff;font-family:Arial,Helvetica,sans-serif;\">Mesaj nou de pe site</h1>\n          </td>\n        </tr>\n        <!-- Contact details -->\n        <tr>\n          <td style=\"padding:24px 32px 8px;\">\n            <table role=\"presentation\" width=\"100%\" cellpadding=\"0\" cellspacing=\"0\" border=\"0\">\n              "
  ++ contactRows
  ++ "\n            </table>\n          </td>\n        </tr>\n        <!-- Message body -->\n        <tr>\n          <td style=\"padding:24px 32px;\">\n            <span style=\"display:block;font-size:11px;text-transform:uppercase;letter-spacing:0.05em;color:#78716c;margin-bottom:8px;\">Mesaj</span>\n            <table role=\"presentation\" width=\"100%\" cellpadding=\"0\" cellspacing=\"0\" border=\"0\">\n              <tr>\n                <td style=\"background-color:#f5f0eb;border-radius:6px;padding:16px;font-size:15px;line-height:1.6;color:#292524;\">\n                  "
  ++ newlinesToBr f.message
  ++ "\n                </td>\n              </tr>\n            </table>\n          </td>\n        </tr>\n        <!-- Reply CTA -->\n        <tr>\n          <td style=\"padding:0 32px 32px;\" align=\"center\">\n            <table role=\"presentation\" cellpadding=\"0\" cellspacing=\"0\" border=\"0\">\n              <tr>\n                <td style=\"background-color:#0d9488;border-radius:6px;text-align:center;\">\n                  <a href=\"mailto:"
  ++ f.email
  ++ "\" style=\"display:inline-block;padding:12px 28px;font-size:14px;font-weight:600;color:#ffffff;text-decoration:none;font-family:Arial,Helvetica,sans-serif;\">Răspunde lui "
  ++ f.name
  ++ "</a>\n                </td>\n              </tr>\n            </table>\n          </td>\n        </tr>\n        <!-- Footer -->\n        <tr>\n          <td style=\"background-color:#f5f0eb;padding:16px 32px;text-align:center;\">\n            <span style=\"font-size:12px;color:#78716c;\">Trimis prin formularul de contact &mdash; miciicampioni.ro</span>\n          </td>\n        </tr>\n      </table>\n      <!--[if mso]></td></tr></table><![endif]-->\n    </td></tr>\n  </table>\n</body>\n</html>"

/-! ## The outbound email request and the provider outcome -/

structure EmailRequest where
  fromField : String
  toField : String
  replyTo : String
  subject : String
  html : String
deriving Repr, DecidableEq

/-- Resend response data: the id of the accepted email. -/
structure ResendData where
  id : String
deriving Repr, DecidableEq

/-- Destructured result of resend.emails.send: data and error. The error is an
object, so any present error is truthy regardless of its message. -/
structure EmailSendOutcome where
  data : Option ResendData := none
  error : Option String := none
deriving Repr, DecidableEq

/-- The failure test of both handlers: sendError || !sendResult?.id. A missing
result or an empty id string is falsy. -/
def emailSendFailed (o : EmailSendOutcome) : Bool :=
  o.error.isSome || !(strTruthy (o.data.map (fun d => d.id)))

/-! ## The POST handlers -/

inductive ResponseBody where
  | errorMsg (msg : String)
  | successMsg (msg : String)
deriving Repr, DecidableEq

structure HttpResponse where
  status : Nat
  body : ResponseBody
deriving Repr, DecidableEq

/-- Observable outbound calls of one request. -/
inductive Effect where
  | emailSend (req : EmailRequest)
  | conversionPost (ev : ServerEvent)

def Effect.isEmailSend : Effect → Bool
  | .emailSend _ => true
  | _ => false

def Effect.isConversionPost : Effect → Bool
  | .conversionPost _ => true
  | _ => false

/-- Client ip extraction: first comma-separated component of x-forwarded-for,
trimmed, with the || fallback to the string unknown. -/
def extractIp (fwd : Option String) : String :=
  match fwd with
  | none => "unknown"
  | some f =>
      let first := jsTrim ((f.splitOn ",").headD "")
      if first.isEmpty then "unknown" else first

/-- The model of one HTTP request as the handlers observe it. The JSON body is
assumed to parse (the catch-all 500 branch of a malformed body is outside every
claim). -/
structure RequestModel where
  xForwardedFor : Option String := none
  userAgent : Option String := none
  body : ContactFormData

def rateLimitedResponse : HttpResponse :=
  ⟨429, .errorMsg "Prea multe cereri. Te rugăm să aștepți câteva minute."⟩

def successResponse : HttpResponse :=
  ⟨200, .successMsg "Mesajul a fost trimis cu succes!"⟩

def emailErrorResponse : HttpResponse :=
  ⟨500, .errorMsg "A apărut o eroare la trimiterea mesajului. Te rugăm să încerci din nou."⟩

/-- The POST handler of part_007 (lines 246-355): rate limit, honeypot,
validation, sanitization, email send, then the Conversions API event dispatched
through after. Returns the response, the rate-limit map after the request, and
the list of outbound calls in order. -/
def POST_part007 (env : Env) (sha : String → String) (nowMs : Int) (rand : String)
    (outcome : EmailSendOutcome) (req : RequestModel) (m : RateLimitMap) :
    HttpResponse × RateLimitMap × List Effect :=
  let ip := extractIp req.xForwardedFor
  let result := isRateLimited ip nowMs m
  let m1 := result.2
  if result.1 then
    (rateLimitedResponse, m1, [])
  else if strTruthy req.body.website then
    (successResponse, m1, [])
  else
    match validate req.body with
    | some e => (⟨400, .errorMsg e⟩, m1, [])
    | none =>
        let s := sanitize req.body
        let toAddr := jsOr env.CONTACT_EMAIL_TO "info@miciicampioni.ro"
        let fromAddr := jsOr env.CONTACT_EMAIL_FROM "noreply@launchinto.space"
        let emailReq : EmailRequest := {
          fromField := "Micii Campioni Website <" ++ fromAddr ++ ">"
          toField := toAddr
          replyTo := s.email
          subject := "Mesaj nou de la " ++ s.name
          html := buildContactEmailHtml s }
        if emailSendFailed outcome then
          (emailErrorResponse, m1, [.emailSend emailReq])
        else
          let sourceUrl := jsOr req.body.pageUrl (jsOr env.NEXT_PUBLIC_SITE_URL "https://miciicampioni.ro")
          let ev := trackLead env sha nowMs rand {
            email := s.email
            phone := s.phone
            name := some s.name
            service := s.service
            sourceUrl := sourceUrl
            clientIp := if ip != "unknown" then some ip else none
            userAgent := req.userAgent
            fbc := req.body.fbc
            fbp := req.body.fbp
            eventId := req.body.eventId }
          let effects := [Effect.emailSend emailReq] ++
            (match ev with
             | some e => [Effect.conversionPost e]
             | none => [])
          (successResponse, m1, effects)

/-- The POST handler of route.ts (lines 129-221): identical control flow
without the conversion tracking, with the inline email template and the
website default sender address. -/
def POST_route (env : Env) (nowMs : Int) (outcome : EmailSendOutcome)
    (req : RequestModel) (m : RateLimitMap) :
    HttpResponse × RateLimitMap × List Effect :=
  let ip := extractIp req.xForwardedFor
  let result := isRateLimited ip nowMs m
  let m1 := result.2
  if result.1 then
    (rateLimitedResponse, m1, [])
  else if strTruthy req.body.website then
    (successResponse, m1, [])
  else
    match validate req.body with
    | some e => (⟨400, .errorMsg e⟩, m1, [])
    | none =>
        let s := sanitize req.body
        let toAddr := jsOr env.CONTACT_EMAIL_TO "info@miciicampioni.ro"
        let fromAddr := jsOr env.CONTACT_EMAIL_FROM "website@miciicampioni.ro"
        let emailReq : EmailRequest := {
          fromField := "Micii Campioni Website <" ++ fromAddr ++ ">"
          toField := toAddr
          replyTo := s.email
          subject := "Mesaj nou de la " ++ s.name
          html := routeEmailHtml s }
        if emailSendFailed outcome then
          (emailErrorResponse, m1, [.emailSend emailReq])
        else
          (successResponse, m1, [.emailSend emailReq])

/-! ## Rate-limiter lemmas -/

theorem mapSet_find_self (m : RateLimitMap) (ip : String) (v : List Int) :
    (mapSet m ip v).find? (fun p => p.1 == ip) = some (ip, v) := by
  unfold mapSet
  by_cases h : m.any (fun p => p.1 == ip) = true
  · rw [if_pos h]
    induction m with
    | nil => simp at h
    | cons p rest ih =>
        rw [List.map_cons]
        by_cases hp : (p.1 == ip) = true
        · have hpe : p.1 = ip := by exact eq_of_beq hp
          rw [if_pos hp]
          rw [List.find?_cons_of_pos _ (by simpa using hp)]
          rw [hpe]
        · rw [if_neg hp]
          rw [List.find?_cons_of_neg _ (by simpa using hp)]
          apply ih
          rcases (List.any_eq_true.mp h) with ⟨q, hq, hqp⟩
          rcases List.mem_cons.mp hq with hq | hq
          · subst hq
            exact absurd hqp (by simpa using hp)
          · exact List.any_eq_true.mpr ⟨q, hq, hqp⟩
  · rw [if_neg h]
    induction m with
    | nil => simp [List.find?]
    | cons p rest ih =>
        have hp : (p.1 == ip) = false := by
          rcases hb : (p.1 == ip) with _ | _
          · rfl
          · exact absurd (List.any_eq_true.mpr ⟨p, List.mem_cons_self p rest, hb⟩) h
        rw [List.cons_append, List.find?_cons_of_neg _ (by simpa using hp)]
        apply ih
        intro hc
        rcases (List.any_eq_true.mp hc) with ⟨q, hq, hqp⟩
        exact absurd (List.any_eq_true.mpr ⟨q, List.mem_cons_of_mem p hq, hqp⟩) h

theorem find_filter_of_keep {q : String × List Int → Bool} {m : RateLimitMap} {ip : String}
    {e : String × List Int}
    (hfind : m.find? (fun p => p.1 == ip) = some e) (hq : q e = true) :
    (m.filter q).find? (fun p => p.1 == ip) = some e := by
  induction m with
  | nil => simp at hfind
  | cons p rest ih =>
      by_cases hp : (p.1 == ip) = true
      · rw [List.find?_cons_of_pos _ (by simpa using hp)] at hfind
        injection hfind with he
        subst he
        rw [List.filter_cons, if_pos hq]
        exact List.find?_cons_of_pos _ (by simpa using hp)
      · rw [List.find?_cons_of_neg _ (by simpa using hp)] at hfind
        rw [List.filter_cons]
        by_cases hqp : q p = true
        · rw [if_pos hqp]
          rw [List.find?_cons_of_neg _ (by simpa using hp)]
          exact ih hfind
        · rw [if_neg hqp]
          exact ih hfind

theorem mapGet_mapSet_self (m : RateLimitMap) (ip : String) (v : List Int) :
    mapGet (mapSet m ip v) ip = v := by
  unfold mapGet
  rw [mapSet_find_self]

/-- The entry written by a non-limited call survives the inline cleanup: its
list contains the current time, which is inside the window. -/
theorem keepEntry_of_now_mem (now : Int) (ip : String) (v : List Int) (h : now ∈ v) :
    keepEntry now (ip, v) = true := by
  unfold keepEntry
  have : v.all (fun t => decide (RATE_LIMIT_WINDOW_MS ≤ now - t)) = false := by
    rcases hb : v.all (fun t => decide (RATE_LIMIT_WINDOW_MS ≤ now - t)) with _ | _
    · rfl
    · have := List.all_eq_true.mp hb now h
      simp only [decide_eq_true_eq] at this
      rw [show RATE_LIMIT_WINDOW_MS = 900000 from rfl] at this
      omega
  simp [this]

theorem isRateLimited_true_iff (ip : String) (now : Int) (m : RateLimitMap) :
    (isRateLimited ip now m).1 = true ↔
      RATE_LIMIT_MAX ≤ ((mapGet m ip).filter (fun t => now - t < RATE_LIMIT_WINDOW_MS)).length := by
  unfold isRateLimited
  by_cases h : RATE_LIMIT_MAX ≤ ((mapGet m ip).filter (fun t => now - t < RATE_LIMIT_WINDOW_MS)).length
  · simp [h]
  · simp [h]

theorem isRateLimited_true_map_unchanged (ip : String) (now : Int) (m : RateLimitMap)
    (h : (isRateLimited ip now m).1 = true) : (isRateLimited ip now m).2 = m := by
  unfold isRateLimited at *
  by_cases hc : RATE_LIMIT_MAX ≤ ((mapGet m ip).filter (fun t => now - t < RATE_LIMIT_WINDOW_MS)).length
  · simp [hc]
  · simp [hc] at h

theorem isRateLimited_false_mapGet (ip : String) (now : Int) (m : RateLimitMap)
    (h : (isRateLimited ip now m).1 = false) :
    mapGet (isRateLimited ip now m).2 ip =
      ((mapGet m ip).filter (fun t => now - t < RATE_LIMIT_WINDOW_MS)) ++ [now] := by
  unfold isRateLimited at *
  by_cases hc : RATE_LIMIT_MAX ≤ ((mapGet m ip).filter (fun t => now - t < RATE_LIMIT_WINDOW_MS)).length
  · simp [hc] at h
  · simp only [hc, if_false, if_neg hc]
    set v := ((mapGet m ip).filter (fun t => now - t < RATE_LIMIT_WINDOW_MS)) ++ [now] with hv
    by_cases hsz : 1000 < (mapSet m ip v).length
    · simp only [hsz, if_true, if_pos hsz]
      unfold mapGet
      rw [find_filter_of_keep (mapSet_find_self m ip v)
            (keepEntry_of_now_mem now ip v (by simp [hv]))]
    · simp only [hsz, if_neg hsz]
      exact mapGet_mapSet_self m ip v

/-- Every entry of a written map is the freshly written pair or an entry of the
original map. -/
theorem mem_mapSet {m : RateLimitMap} {ip : String} {v : List Int} {p : String × List Int}
    (hp : p ∈ mapSet m ip v) : p.2 = v ∨ p ∈ m := by
  unfold mapSet at hp
  by_cases h : m.any (fun q => q.1 == ip) = true
  · rw [if_pos h] at hp
    rcases List.mem_map.mp hp with ⟨q, hq, hqe⟩
    by_cases hqp : (q.1 == ip) = true
    · left
      rw [if_pos hqp] at hqe
      rw [← hqe]
    · right
      rw [if_neg hqp] at hqe
      rw [← hqe]
      exact hq
  · rw [if_neg h] at hp
    rcases List.mem_append.mp hp with hp | hp
    · right; exact hp
    · left
      have he : p = (ip, v) := by simpa using hp
      rw [he]

/-- One step of the rate limiter keeps every stored list at length at most
RATE_LIMIT_MAX. -/
theorem isRateLimited_preserves_bound (ip : String) (now : Int) (m : RateLimitMap)
    (h : ∀ p ∈ m, p.2.length ≤ RATE_LIMIT_MAX) :
    ∀ p ∈ (isRateLimited ip now m).2, p.2.length ≤ RATE_LIMIT_MAX := by
  unfold isRateLimited
  by_cases hc : RATE_LIMIT_MAX ≤ ((mapGet m ip).filter (fun t => now - t < RATE_LIMIT_WINDOW_MS)).length
  · simpa [hc] using h
  · simp only [hc, if_false, if_neg hc]
    set v := ((mapGet m ip).filter (fun t => now - t < RATE_LIMIT_WINDOW_MS)) ++ [now] with hv
    have hvlen : v.length ≤ RATE_LIMIT_MAX := by
      have : ((mapGet m ip).filter (fun t => now - t < RATE_LIMIT_WINDOW_MS)).length < RATE_LIMIT_MAX := by omega
      simp only [hv, List.length_append, List.length_cons, List.length_nil]
      omega
    have hset : ∀ p ∈ mapSet m ip v, p.2.length ≤ RATE_LIMIT_MAX := by
      intro p hp
      rcases mem_mapSet hp with hp | hp
      · rw [hp]; exact hvlen
      · exact h p hp
    by_cases hsz : 1000 < (mapSet m ip v).length
    · simp only [hsz, if_true, if_pos hsz]
      intro p hp
      exact hset p (List.mem_of_mem_filter hp)
    · simp only [hsz, if_neg hsz]
      exact hset

/-- A sequence of rate-limiter calls, threading the map. Each call is an ip
with the Date.now() value at the time of the call. -/
def runCalls : List (String × Int) → RateLimitMap → RateLimitMap
  | [], m => m
  | c :: rest, m => runCalls rest (isRateLimited c.1 c.2 m).2

theorem runCalls_preserves_bound (calls : List (String × Int)) (m : RateLimitMap)
    (h : ∀ p ∈ m, p.2.length ≤ RATE_LIMIT_MAX) :
    ∀ p ∈ runCalls calls m, p.2.length ≤ RATE_LIMIT_MAX := by
  induction calls generalizing m with
  | nil => exact h
  | cons c rest ih =>
      exact ih _ (isRateLimited_preserves_bound c.1 c.2 m h)

/-! ## stripHtml lemmas -/

/-- An open span with no closing bracket ahead is emitted unchanged. -/
theorem stripHtmlGo_of_not_mem (cs : List Char) :
    ∀ buf : List Char, '>' ∉ cs → stripHtmlGo cs (some buf) = buf.reverse ++ cs := by
  induction cs with
  | nil => intro buf _; simp [stripHtmlGo]
  | cons c rest ih =>
      intro buf h
      have hc : ¬ c = '>' := fun hce => h (hce ▸ List.mem_cons_self c rest)
      have hr : '>' ∉ rest := fun hm => h (List.mem_cons_of_mem c hm)
      simp only [stripHtmlGo, if_neg hc]
      rw [ih (c :: buf) hr]
      simp

/-- An open span with a closing bracket ahead is dropped up to the first one. -/
theorem stripHtmlGo_of_mem (cs : List Char) :
    ∀ buf : List Char, '>' ∈ cs →
      stripHtmlGo cs (some buf) = stripHtmlGo ((cs.dropWhile (fun x => x != '>')).tail) none := by
  induction cs with
  | nil => intro buf h; simp at h
  | cons c rest ih =>
      intro buf h
      by_cases hc : c = '>'
      · subst hc
        simp [stripHtmlGo, List.dropWhile]
      · have hr : '>' ∈ rest := by
          rcases List.mem_cons.mp h with h | h
          · exact absurd h.symm hc
          · exact h
        simp only [stripHtmlGo, if_neg hc]
        rw [ih (c :: buf) hr]
        have : ((c :: rest).dropWhile (fun x => x != '>')) = rest.dropWhile (fun x => x != '>') := by
          rw [List.dropWhile_cons]
          simp [hc]
        rw [this]

/-- Unfolding equation of the scanner in the form of the regex semantics: a
leading opening bracket either starts a match, deleted up to the first closing
bracket, or has no closing bracket ahead and stays; other characters are
copied. -/
theorem stripHtmlList_cons (c : Char) (rest : List Char) :
    stripHtmlList (c :: rest) =
      if c = '<' then
        (if '>' ∈ rest then stripHtmlList ((rest.dropWhile (fun x => x != '>')).tail)
         else c :: rest)
      else c :: stripHtmlList rest := by
  by_cases hc : c = '<'
  · subst hc
    simp only [stripHtmlList, stripHtmlGo, if_pos rfl, if_true]
    by_cases hg : '>' ∈ rest
    · rw [if_pos hg, stripHtmlGo_of_mem rest _ hg]
    · rw [if_neg hg, stripHtmlGo_of_not_mem rest _ hg]
      simp
  · simp only [stripHtmlList, stripHtmlGo, if_neg hc]

theorem containsTag_eq_false_of_not_mem (cs : List Char) (h : '>' ∉ cs) :
    containsTag cs = false := by
  induction cs with
  | nil => rfl
  | cons c rest ih =>
      have hr : '>' ∉ rest := fun hm => h (List.mem_cons_of_mem c hm)
      have hcontains : rest.contains '>' = false := by
        rcases hb : rest.contains '>' with _ | _
        · rfl
        · exact absurd (List.elem_iff.mp hb) hr
      rw [containsTag, hcontains, ih hr]
      simp

theorem containsTag_stripHtmlList_aux (n : Nat) :
    ∀ cs : List Char, cs.length ≤ n → containsTag (stripHtmlList cs) = false := by
  induction n with
  | zero =>
      intro cs h
      have : cs = [] := List.eq_nil_of_length_eq_zero (Nat.le_zero.mp h)
      subst this
      rfl
  | succ n ih =>
      intro cs h
      match cs with
      | [] => rfl
      | c :: rest =>
          rw [stripHtmlList_cons]
          by_cases hc : c = '<'
          · by_cases hg : '>' ∈ rest
            · rw [if_pos hc, if_pos hg]
              apply ih
              have h1 : (rest.dropWhile (fun x => x != '>')).length ≤ rest.length :=
                (List.dropWhile_sublist _).length_le
              have h2 : ((rest.dropWhile (fun x => x != '>')).tail).length ≤
                  (rest.dropWhile (fun x => x != '>')).length := by
                rw [List.length_tail]
                omega
              have h3 : rest.length ≤ n := by
                have := h
                simp only [List.length_cons] at this
                omega
              omega
            · rw [if_pos hc, if_neg hg]
              subst hc
              have hr : '>' ∉ ('<' :: rest) := by
                intro hm
                rcases List.mem_cons.mp hm with hm | hm
                · exact absurd hm (by decide)
                · exact hg hm
              exact containsTag_eq_false_of_not_mem _ hr
          · rw [if_neg hc]
            have hrest : containsTag (stripHtmlList rest) = false := by
              apply ih
              have := h
              simp only [List.length_cons] at this
              omega
            have hcb : (c == '<') = false := by
              rcases hb : c == '<' with _ | _
              · rfl
              · exact absurd (eq_of_beq hb) hc
            simp [containsTag, hcb, hrest]

/-- Every character surviving the strip has no tag around it: the output
contains no substring matching the tag regex. -/
theorem containsTag_stripHtmlList (cs : List Char) :
    containsTag (stripHtmlList cs) = false :=
  containsTag_stripHtmlList_aux cs.length cs (Nat.le_refl _)

/-- A tag-free list is a fixed point of the scanner. -/
theorem stripHtmlList_eq_self (cs : List Char) (h : containsTag cs = false) :
    stripHtmlList cs = cs := by
  induction cs with
  | nil => rfl
  | cons c rest ih =>
      have hparts : ((c == '<') && rest.contains '>') = false ∧ containsTag rest = false := by
        have := h
        simp only [containsTag, Bool.or_eq_false_iff] at this
        exact this
      rw [stripHtmlList_cons]
      by_cases hc : c = '<'
      · have hcb : (c == '<') = true := by
          rw [hc]; decide
        have hcontains : rest.contains '>' = false := by
          have := hparts.1
          rw [hcb] at this
          simpa using this
        have hg : '>' ∉ rest := fun hm => by
          have h2 : List.elem '>' rest = true := List.elem_iff.mpr hm
          have h3 : List.elem '>' rest = false := hcontains
          rw [h2] at h3
          exact absurd h3 (by decide)
        rw [if_pos hc, if_neg hg]
      · rw [if_neg hc, ih hparts.2]

theorem stripHtmlList_idem (cs : List Char) :
    stripHtmlList (stripHtmlList cs) = stripHtmlList cs :=
  stripHtmlList_eq_self _ (containsTag_stripHtmlList cs)

/-! ## Validation lemmas -/

theorem validate_eq_none_iff (d : ContactFormData) :
    validate d = none ↔
      (d.name ≠ "" ∧ d.email ≠ "" ∧ d.message ≠ "" ∧
       d.name.length ≤ MAX_NAME ∧ d.email.length ≤ MAX_EMAIL ∧
       emailRegexTest d.email = true ∧
       (strTruthy d.phone = true → (d.phone.getD "").length ≤ MAX_PHONE) ∧
       d.message.length ≤ MAX_MESSAGE) := by
  unfold validate
  split_ifs with h1 h2 h3 h4 h5 h6
  · simp only [Bool.or_eq_true, String.isEmpty_iff] at h1
    constructor
    · intro h; exact h.elim
    · rintro ⟨hn, he, hm, -⟩
      rcases h1 with (h1 | h1) | h1
      · exact absurd h1 hn
      · exact absurd h1 he
      · exact absurd h1 hm
  · constructor
    · intro h; exact h.elim
    · rintro ⟨-, -, -, hlen, -⟩; omega
  · constructor
    · intro h; exact h.elim
    · rintro ⟨-, -, -, -, hlen, -⟩; omega
  · constructor
    · intro h; exact h.elim
    · rintro ⟨-, -, -, -, -, hreg, -⟩
      rw [hreg] at h4
      exact absurd h4 (by decide)
  · constructor
    · intro h; exact h.elim
    · rintro ⟨-, -, -, -, -, -, hph, -⟩
      simp only [Bool.and_eq_true, decide_eq_true_eq] at h5
      have := hph h5.1
      omega
  · constructor
    · intro h; exact h.elim
    · rintro ⟨-, -, -, -, -, -, -, hlen⟩; omega
  · simp only [Bool.or_eq_true, String.isEmpty_iff] at h1
    push_neg at h1
    constructor
    · intro _
      refine ⟨h1.1.1, h1.1.2, h1.2, by omega, by omega, ?_, ?_, by omega⟩
      · rcases hb : emailRegexTest d.email with _ | _
        · exact absurd (by simp [hb]) h4
        · rfl
      · intro hph
        by_contra hlen
        exact h5 (by simp [hph, Nat.lt_of_not_le hlen])
    · intro _; rfl

theorem validate_missing_required (d : ContactFormData)
    (h : d.name = "" ∨ d.email = "" ∨ d.message = "") :
    validate d = some "Toate câmpurile obligatorii trebuie completate." := by
  unfold validate
  rw [if_pos]
  simp only [Bool.or_eq_true, String.isEmpty_iff]
  exact or_assoc.mpr h

theorem validate_name_too_long (d : ContactFormData)
    (h0 : d.name ≠ "" ∧ d.email ≠ "" ∧ d.message ≠ "")
    (h : MAX_NAME < d.name.length) :
    validate d = some "Numele nu poate depăși 200 de caractere." := by
  unfold validate
  rw [if_neg, if_pos h]
  simp only [Bool.or_eq_true, String.isEmpty_iff]
  push_neg
  exact and_assoc.mpr h0

theorem validate_email_too_long (d : ContactFormData)
    (h0 : d.name ≠ "" ∧ d.email ≠ "" ∧ d.message ≠ "")
    (h1 : d.name.length ≤ MAX_NAME)
    (h : MAX_EMAIL < d.email.length) :
    validate d = some "Emailul nu poate depăși 254 de caractere." := by
  unfold validate
  rw [if_neg, if_neg (by omega), if_pos h]
  simp only [Bool.or_eq_true, String.isEmpty_iff]
  push_neg
  exact and_assoc.mpr h0

theorem validate_email_invalid (d : ContactFormData)
    (h0 : d.name ≠ "" ∧ d.email ≠ "" ∧ d.message ≠ "")
    (h1 : d.name.length ≤ MAX_NAME)
    (h2 : d.email.length ≤ MAX_EMAIL)
    (h : emailRegexTest d.email = false) :
    validate d = some "Adresa de email nu este validă." := by
  unfold validate
  rw [if_neg, if_neg (by omega), if_neg (by omega), if_pos (by simp [h])]
  simp only [Bool.or_eq_true, String.isEmpty_iff]
  push_neg
  exact and_assoc.mpr h0

theorem validate_phone_too_long (d : ContactFormData)
    (h0 : d.name ≠ "" ∧ d.email ≠ "" ∧ d.message ≠ "")
    (h1 : d.name.length ≤ MAX_NAME)
    (h2 : d.email.length ≤ MAX_EMAIL)
    (h3 : emailRegexTest d.email = true)
    (h4 : strTruthy d.phone = true)
    (h : MAX_PHONE < (d.phone.getD "").length) :
    validate d = some "Numărul de telefon nu poate depăși 30 de caractere." := by
  unfold validate
  rw [if_neg, if_neg (by omega), if_neg (by omega), if_neg (by simp [h3]),
      if_pos (by simp [h4, h])]
  simp only [Bool.or_eq_true, String.isEmpty_iff]
  push_neg
  exact and_assoc.mpr h0

theorem validate_message_too_long (d : ContactFormData)
    (h0 : d.name ≠ "" ∧ d.email ≠ "" ∧ d.message ≠ "")
    (h1 : d.name.length ≤ MAX_NAME)
    (h2 : d.email.length ≤ MAX_EMAIL)
    (h3 : emailRegexTest d.email = true)
    (h4 : strTruthy d.phone = true → (d.phone.getD "").length ≤ MAX_PHONE)
    (h : MAX_MESSAGE < d.message.length) :
    validate d = some "Mesajul nu poate depăși 5000 de caractere." := by
  unfold validate
  rw [if_neg, if_neg (by omega), if_neg (by omega), if_neg (by simp [h3]),
      if_neg, if_pos h]
  · rcases hb : strTruthy d.phone with _ | _
    · simp [hb]
    · simp [hb, Nat.not_lt.mpr (h4 hb)]
  · simp only [Bool.or_eq_true, String.isEmpty_iff]
    push_neg
    exact and_assoc.mpr h0

/-! ## Handler unfolding lemmas -/

theorem POST_part007_rate_limited (env : Env) (sha : String → String) (nowMs : Int)
    (rand : String) (outcome : EmailSendOutcome) (req : RequestModel) (m : RateLimitMap)
    (h : (isRateLimited (extractIp req.xForwardedFor) nowMs m).1 = true) :
    POST_part007 env sha nowMs rand outcome req m =
      (rateLimitedResponse, (isRateLimited (extractIp req.xForwardedFor) nowMs m).2, []) := by
  unfold POST_part007
  simp [h]

theorem POST_part007_honeypot (env : Env) (sha : String → String) (nowMs : Int)
    (rand : String) (outcome : EmailSendOutcome) (req : RequestModel) (m : RateLimitMap)
    (hlim : (isRateLimited (extractIp req.xForwardedFor) nowMs m).1 = false)
    (hbot : strTruthy req.body.website = true) :
    POST_part007 env sha nowMs rand outcome req m =
      (successResponse, (isRateLimited (extractIp req.xForwardedFor) nowMs m).2, []) := by
  unfold POST_part007
  simp [hlim, hbot]

theorem POST_part007_validation_error (env : Env) (sha : String → String) (nowMs : Int)
    (rand : String) (outcome : EmailSendOutcome) (req : RequestModel) (m : RateLimitMap)
    (e : String)
    (hlim : (isRateLimited (extractIp req.xForwardedFor) nowMs m).1 = false)
    (hbot : strTruthy req.body.website = false)
    (hval : validate req.body = some e) :
    POST_part007 env sha nowMs rand outcome req m =
      (⟨400, .errorMsg e⟩, (isRateLimited (extractIp req.xForwardedFor) nowMs m).2, []) := by
  unfold POST_part007
  simp [hlim, hbot, hval]

/-- The email request built by the part_007 handler for a sanitized submission. -/
def part007EmailRequest (env : Env) (s : SanitizedFields) : EmailRequest where
  fromField := "Micii Campioni Website <" ++ jsOr env.CONTACT_EMAIL_FROM "noreply@launchinto.space" ++ ">"
  toField := jsOr env.CONTACT_EMAIL_TO "info@miciicampioni.ro"
  replyTo := s.email
  subject := "Mesaj nou de la " ++ s.name
  html := buildContactEmailHtml s

/-- The trackLead argument record built by the part_007 handler. -/
def part007TrackArgs (env : Env) (req : RequestModel) (s : SanitizedFields) : TrackLeadArgs where
  email := s.email
  phone := s.phone
  name := some s.name
  service := s.service
  sourceUrl := jsOr req.body.pageUrl (jsOr env.NEXT_PUBLIC_SITE_URL "https://miciicampioni.ro")
  clientIp :=
    if extractIp req.xForwardedFor != "unknown" then some (extractIp req.xForwardedFor) else none
  userAgent := req.userAgent
  fbc := req.body.fbc
  fbp := req.body.fbp
  eventId := req.body.eventId

theorem POST_part007_email_failed (env : Env) (sha : String → String) (nowMs : Int)
    (rand : String) (outcome : EmailSendOutcome) (req : RequestModel) (m : RateLimitMap)
    (hlim : (isRateLimited (extractIp req.xForwardedFor) nowMs m).1 = false)
    (hbot : strTruthy req.body.website = false)
    (hval : validate req.body = none)
    (hmail : emailSendFailed outcome = true) :
    POST_part007 env sha nowMs rand outcome req m =
      (emailErrorResponse, (isRateLimited (extractIp req.xForwardedFor) nowMs m).2,
        [Effect.emailSend (part007EmailRequest env (sanitize req.body))]) := by
  unfold POST_part007 part007EmailRequest
  simp [hlim, hbot, hval, hmail]

theorem POST_part007_success (env : Env) (sha : String → String) (nowMs : Int)
    (rand : String) (outcome : EmailSendOutcome) (req : RequestModel) (m : RateLimitMap)
    (hlim : (isRateLimited (extractIp req.xForwardedFor) nowMs m).1 = false)
    (hbot : strTruthy req.body.website = false)
    (hval : validate req.body = none)
    (hmail : emailSendFailed outcome = false) :
    POST_part007 env sha nowMs rand outcome req m =
      (successResponse, (isRateLimited (extractIp req.xForwardedFor) nowMs m).2,
        Effect.emailSend (part007EmailRequest env (sanitize req.body)) ::
          (match trackLead env sha nowMs rand (part007TrackArgs env req (sanitize req.body)) with
           | some e => [Effect.conversionPost e]
           | none => [])) := by
  unfold POST_part007 part007EmailRequest part007TrackArgs
  simp [hlim, hbot, hval, hmail]

/-! ## Concrete fixtures for witnesses and counterexamples -/

def exampleBody : ContactFormData :=
  { name := "Ana Pop", email := "ana@mail.ro", message := "Buna ziua" }

def botBody : ContactFormData :=
  { name := "", email := "", message := "", website := some "http://spam.example" }

def exampleReq : RequestModel := { body := exampleBody }

def botReq : RequestModel := { body := botBody }

def okOutcome : EmailSendOutcome := { data := some ⟨"re_123"⟩ }

def failOutcome : EmailSendOutcome := { error := some "boom" }

def fbEnv : Env := { FB_PIXEL_ID := some "123456", FB_ACCESS_TOKEN := some "token" }

/-- A rate-limit map holding five timestamps inside the window for one ip. -/
def fullMap : RateLimitMap := [("203.0.113.9", [999, 998, 997, 996, 995])]

/-! ## Claim theorems -/

/-- C2: the rate limiter is a per-IP sliding-window counter: isRateLimited
returns true exactly when at least RATE_LIMIT_MAX = 5 recorded timestamps for
the ip lie strictly within the preceding 15-minute window; a true result
leaves the map unchanged (a rejected request consumes no slot), and a false
result records the current time for the ip. -/
theorem rateLimiter_sliding_window_spec (ip : String) (now : Int) (m : RateLimitMap) :
    ((isRateLimited ip now m).1 = true ↔
      RATE_LIMIT_MAX ≤ ((mapGet m ip).filter (fun t => now - t < RATE_LIMIT_WINDOW_MS)).length)
    ∧ ((isRateLimited ip now m).1 = true → (isRateLimited ip now m).2 = m)
    ∧ ((isRateLimited ip now m).1 = false →
        mapGet (isRateLimited ip now m).2 ip =
          ((mapGet m ip).filter (fun t => now - t < RATE_LIMIT_WINDOW_MS)) ++ [now]) :=
  ⟨isRateLimited_true_iff ip now m,
   isRateLimited_true_map_unchanged ip now m,
   isRateLimited_false_mapGet ip now m⟩

/-- Witness for C2: a first call from a fresh ip is not limited and records its
time; a call against five in-window timestamps is limited and leaves the map
unchanged. -/
theorem rateLimiter_sliding_window_spec_witness :
    mapGet (isRateLimited "203.0.113.9" 1000 []).2 "203.0.113.9" =
      ((mapGet [] "203.0.113.9").filter
        (fun t => 1000 - t < RATE_LIMIT_WINDOW_MS)) ++ [1000]
    ∧ (isRateLimited "203.0.113.9" 1000 fullMap).2 = fullMap := by
  constructor
  · exact (rateLimiter_sliding_window_spec "203.0.113.9" 1000 []).2.2 (by decide)
  · exact (rateLimiter_sliding_window_spec "203.0.113.9" 1000 fullMap).2.1 (by decide)

/-- C8: starting from the empty map, any sequence of isRateLimited calls keeps
every stored per-IP timestamp list at length at most RATE_LIMIT_MAX = 5. -/
theorem rateLimitMap_entries_bounded (calls : List (String × Int)) :
    (runCalls calls []).all (fun p => decide (p.2.length ≤ RATE_LIMIT_MAX)) = true := by
  rw [List.all_eq_true]
  intro p hp
  simp only [decide_eq_true_eq]
  refine runCalls_preserves_bound calls [] ?_ p hp
  intro q hq
  simp at hq

/-- C10: a honeypot submission still consumes a rate-limit slot: when the
request is not rate-limited and the honeypot field is filled, the handler
responds with the silent success and the final map has the current time
recorded for the ip, because the rate-limit check runs before the honeypot
check. -/
theorem honeypot_consumes_rate_limit_slot (env : Env) (sha : String → String) (nowMs : Int)
    (rand : String) (outcome : EmailSendOutcome) (req : RequestModel) (m : RateLimitMap)
    (hlim : (isRateLimited (extractIp req.xForwardedFor) nowMs m).1 = false)
    (hbot : strTruthy req.body.website = true) :
    (POST_part007 env sha nowMs rand outcome req m).1 = successResponse
    ∧ mapGet (POST_part007 env sha nowMs rand outcome req m).2.1 (extractIp req.xForwardedFor) =
        ((mapGet m (extractIp req.xForwardedFor)).filter
          (fun t => nowMs - t < RATE_LIMIT_WINDOW_MS)) ++ [nowMs] := by
  rw [POST_part007_honeypot env sha nowMs rand outcome req m hlim hbot]
  exact ⟨rfl, isRateLimited_false_mapGet _ _ _ hlim⟩

/-- Witness for C10 at a concrete bot request from a fresh ip. -/
theorem honeypot_consumes_rate_limit_slot_witness :
    (POST_part007 {} (fun s => s) 0 "r" failOutcome botReq []).1 = successResponse
    ∧ mapGet (POST_part007 {} (fun s => s) 0 "r" failOutcome botReq []).2.1
        (extractIp botReq.xForwardedFor) =
        ((mapGet [] (extractIp botReq.xForwardedFor)).filter
          (fun t => 0 - t < RATE_LIMIT_WINDOW_MS)) ++ [0] :=
  honeypot_consumes_rate_limit_slot {} (fun s => s) 0 "r" failOutcome botReq []
    (by decide) (by decide)

/-- C4: a non-rate-limited request with a filled honeypot field gets the same
200 success body as a genuine submission and triggers no outbound call at all:
no validation outcome is observable, no email is sent and no conversion event
is posted. -/
theorem honeypot_silent_discard (env : Env) (sha : String → String) (nowMs : Int)
    (rand : String) (outcome : EmailSendOutcome) (req : RequestModel) (m : RateLimitMap)
    (hlim : (isRateLimited (extractIp req.xForwardedFor) nowMs m).1 = false)
    (hbot : strTruthy req.body.website = true) :
    (POST_part007 env sha nowMs rand outcome req m).1 =
      ⟨200, .successMsg "Mesajul a fost trimis cu succes!"⟩
    ∧ (POST_part007 env sha nowMs rand outcome req m).2.2 = [] := by
  rw [POST_part007_honeypot env sha nowMs rand outcome req m hlim hbot]
  exact ⟨rfl, rfl⟩

/-- Witness for C4 at a concrete bot request. -/
theorem honeypot_silent_discard_witness :
    (POST_part007 {} (fun s => s) 0 "r" failOutcome botReq []).1 =
      ⟨200, .successMsg "Mesajul a fost trimis cu succes!"⟩
    ∧ (POST_part007 {} (fun s => s) 0 "r" failOutcome botReq []).2.2 = [] :=
  honeypot_silent_discard {} (fun s => s) 0 "r" failOutcome botReq []
    (by decide) (by decide)

/-- C5: when the email provider returns an error or a result without an id,
the handler responds 500 with the send-error message, posts no conversion
event, and the email-send API was invoked exactly once, so never retried. -/
theorem email_failure_500_no_conversion_no_retry (env : Env) (sha : String → String)
    (nowMs : Int) (rand : String) (outcome : EmailSendOutcome) (req : RequestModel)
    (m : RateLimitMap)
    (hlim : (isRateLimited (extractIp req.xForwardedFor) nowMs m).1 = false)
    (hbot : strTruthy req.body.website = false)
    (hval : validate req.body = none)
    (hmail : emailSendFailed outcome = true) :
    (POST_part007 env sha nowMs rand outcome req m).1 =
      ⟨500, .errorMsg "A apărut o eroare la trimiterea mesajului. Te rugăm să încerci din nou."⟩
    ∧ (POST_part007 env sha nowMs rand outcome req m).2.2 =
        [Effect.emailSend (part007EmailRequest env (sanitize req.body))]
    ∧ ((POST_part007 env sha nowMs rand outcome req m).2.2.filter Effect.isConversionPost).length = 0
    ∧ ((POST_part007 env sha nowMs rand outcome req m).2.2.filter Effect.isEmailSend).length = 1 := by
  rw [POST_part007_email_failed env sha nowMs rand outcome req m hlim hbot hval hmail]
  refine ⟨rfl, rfl, ?_, ?_⟩
  · simp [Effect.isConversionPost]
  · simp [Effect.isEmailSend]

/-- Witness for C5 at a concrete valid request whose send fails. -/
theorem email_failure_500_no_conversion_no_retry_witness :
    (POST_part007 {} (fun s => s) 0 "r" failOutcome exampleReq []).1 =
      ⟨500, .errorMsg "A apărut o eroare la trimiterea mesajului. Te rugăm să încerci din nou."⟩
    ∧ (POST_part007 {} (fun s => s) 0 "r" failOutcome exampleReq []).2.2 =
        [Effect.emailSend (part007EmailRequest {} (sanitize exampleReq.body))]
    ∧ ((POST_part007 {} (fun s => s) 0 "r" failOutcome exampleReq []).2.2.filter
        Effect.isConversionPost).length = 0
    ∧ ((POST_part007 {} (fun s => s) 0 "r" failOutcome exampleReq []).2.2.filter
        Effect.isEmailSend).length = 1 :=
  email_failure_500_no_conversion_no_retry {} (fun s => s) 0 "r" failOutcome exampleReq []
    (by decide) (by decide) (by decide) (by decide)

/-- A configured Conversions API client always builds the event: the posted
event carries the given event name, and the supplied eventId when truthy, else
the generated one. -/
theorem sendServerEvent_configured (env : Env) (sha : String → String) (nowMs : Int)
    (rand : String) (a : SendServerEventArgs)
    (hpix : strTruthy env.FB_PIXEL_ID = true)
    (htok : strTruthy env.FB_ACCESS_TOKEN = true) :
    ∃ ev, sendServerEvent env sha nowMs rand a = some ev
      ∧ ev.event_name = a.eventName
      ∧ ev.event_id = (if strTruthy a.eventId then a.eventId.getD ""
          else a.eventName ++ "_" ++ toString (Int.fdiv nowMs 1000) ++ "_" ++ rand) := by
  unfold sendServerEvent
  rw [if_neg (by simp [hpix]), if_neg (by simp [htok])]
  exact ⟨_, rfl, rfl, rfl⟩

/-- trackLead posts a Lead event with the eventId it was given, when the
client is configured. -/
theorem trackLead_configured (env : Env) (sha : String → String) (nowMs : Int)
    (rand : String) (a : TrackLeadArgs)
    (hpix : strTruthy env.FB_PIXEL_ID = true)
    (htok : strTruthy env.FB_ACCESS_TOKEN = true) :
    ∃ ev, trackLead env sha nowMs rand a = some ev
      ∧ ev.event_name = "Lead"
      ∧ ev.event_id = (if strTruthy a.eventId then a.eventId.getD ""
          else "Lead" ++ "_" ++ toString (Int.fdiv nowMs 1000) ++ "_" ++ rand) := by
  unfold trackLead
  exact sendServerEvent_configured env sha nowMs rand _ hpix htok

/-- C1: a non-rate-limited, non-honeypot, valid submission whose email send
returns an id yields a 200 success response, exactly one outbound email to the
configured inbox, and exactly one Lead event posted to the Conversions API
(given a configured pixel id and access token). -/
theorem happy_path_one_email_one_lead (env : Env) (sha : String → String) (nowMs : Int)
    (rand : String) (outcome : EmailSendOutcome) (req : RequestModel) (m : RateLimitMap)
    (hlim : (isRateLimited (extractIp req.xForwardedFor) nowMs m).1 = false)
    (hbot : strTruthy req.body.website = false)
    (hval : validate req.body = none)
    (hmail : emailSendFailed outcome = false)
    (hpix : strTruthy env.FB_PIXEL_ID = true)
    (htok : strTruthy env.FB_ACCESS_TOKEN = true) :
    ∃ ev : ServerEvent,
      (POST_part007 env sha nowMs rand outcome req m).1 =
        ⟨200, .successMsg "Mesajul a fost trimis cu succes!"⟩
      ∧ (POST_part007 env sha nowMs rand outcome req m).2.2 =
          [Effect.emailSend (part007EmailRequest env (sanitize req.body)),
           Effect.conversionPost ev]
      ∧ (part007EmailRequest env (sanitize req.body)).toField =
          jsOr env.CONTACT_EMAIL_TO "info@miciicampioni.ro"
      ∧ ev.event_name = "Lead" := by
  obtain ⟨ev, hev, hname, -⟩ :=
    trackLead_configured env sha nowMs rand (part007TrackArgs env req (sanitize req.body))
      hpix htok
  refine ⟨ev, ?_, ?_, rfl, hname⟩
  · rw [POST_part007_success env sha nowMs rand outcome req m hlim hbot hval hmail]
    rfl
  · rw [POST_part007_success env sha nowMs rand outcome req m hlim hbot hval hmail, hev]

/-- Witness for C1 at a concrete valid request with a configured environment. -/
theorem happy_path_one_email_one_lead_witness :
    ∃ ev : ServerEvent,
      (POST_part007 fbEnv (fun s => s) 0 "r" okOutcome exampleReq []).1 =
        ⟨200, .successMsg "Mesajul a fost trimis cu succes!"⟩
      ∧ (POST_part007 fbEnv (fun s => s) 0 "r" okOutcome exampleReq []).2.2 =
          [Effect.emailSend (part007EmailRequest fbEnv (sanitize exampleReq.body)),
           Effect.conversionPost ev]
      ∧ (part007EmailRequest fbEnv (sanitize exampleReq.body)).toField =
          jsOr fbEnv.CONTACT_EMAIL_TO "info@miciicampioni.ro"
      ∧ ev.event_name = "Lead" :=
  happy_path_one_email_one_lead fbEnv (fun s => s) 0 "r" okOutcome exampleReq []
    (by decide) (by decide) (by decide) (by decide) (by decide) (by decide)

/-- C3: validate accepts exactly the data with all required fields non-empty,
name at most 200, email at most 254 and matching the regex, phone (when
present and non-empty) at most 30, and message at most 5000 characters; on
failure it returns the message of the first failing check in this order, and
the handler turns any validation error into a 400 response carrying exactly
that message. -/
theorem validate_first_error_and_400 (d : ContactFormData) :
    (validate d = none ↔
      (d.name ≠ "" ∧ d.email ≠ "" ∧ d.message ≠ "" ∧
       d.name.length ≤ MAX_NAME ∧ d.email.length ≤ MAX_EMAIL ∧
       emailRegexTest d.email = true ∧
       (strTruthy d.phone = true → (d.phone.getD "").length ≤ MAX_PHONE) ∧
       d.message.length ≤ MAX_MESSAGE))
    ∧ ((d.name = "" ∨ d.email = "" ∨ d.message = "") →
        validate d = some "Toate câmpurile obligatorii trebuie completate.")
    ∧ (d.name ≠ "" ∧ d.email ≠ "" ∧ d.message ≠ "" →
        MAX_NAME < d.name.length →
        validate d = some "Numele nu poate depăși 200 de caractere.")
    ∧ (d.name ≠ "" ∧ d.email ≠ "" ∧ d.message ≠ "" →
        d.name.length ≤ MAX_NAME →
        MAX_EMAIL < d.email.length →
        validate d = some "Emailul nu poate depăși 254 de caractere.")
    ∧ (d.name ≠ "" ∧ d.email ≠ "" ∧ d.message ≠ "" →
        d.name.length ≤ MAX_NAME →
        d.email.length ≤ MAX_EMAIL →
        emailRegexTest d.email = false →
        validate d = some "Adresa de email nu este validă.")
    ∧ (d.name ≠ "" ∧ d.email ≠ "" ∧ d.message ≠ "" →
        d.name.length ≤ MAX_NAME →
        d.email.length ≤ MAX_EMAIL →
        emailRegexTest d.email = true →
        strTruthy d.phone = true →
        MAX_PHONE < (d.phone.getD "").length →
        validate d = some "Numărul de telefon nu poate depăși 30 de caractere.")
    ∧ (d.name ≠ "" ∧ d.email ≠ "" ∧ d.message ≠ "" →
        d.name.length ≤ MAX_NAME →
        d.email.length ≤ MAX_EMAIL →
        emailRegexTest d.email = true →
        (strTruthy d.phone = true → (d.phone.getD "").length ≤ MAX_PHONE) →
        MAX_MESSAGE < d.message.length →
        validate d = some "Mesajul nu poate depăși 5000 de caractere.")
    ∧ (∀ (env : Env) (sha : String → String) (nowMs : Int) (rand : String)
          (outcome : EmailSendOutcome) (req : RequestModel) (m : RateLimitMap) (e : String),
        (isRateLimited (extractIp req.xForwardedFor) nowMs m).1 = false →
        strTruthy req.body.website = false →
        validate req.body = some e →
        (POST_part007 env sha nowMs rand outcome req m).1 = ⟨400, .errorMsg e⟩) := by
  refine ⟨validate_eq_none_iff d, validate_missing_required d,
    validate_name_too_long d, validate_email_too_long d, validate_email_invalid d,
    validate_phone_too_long d, validate_message_too_long d,
    fun env sha nowMs rand outcome req m e hlim hbot hval => ?_⟩
  rw [POST_part007_validation_error env sha nowMs rand outcome req m e hlim hbot hval]

/-- Witness for C3: a valid body passes; a malformed email fails with the
regex message and the handler answers 400 with it. -/
theorem validate_first_error_and_400_witness :
    validate exampleBody = none
    ∧ validate { exampleBody with email := "bad" } =
        some "Adresa de email nu este validă."
    ∧ (POST_part007 {} (fun s => s) 0 "r" failOutcome
        { body := { exampleBody with email := "bad" } } []).1 =
        ⟨400, .errorMsg "Adresa de email nu este validă."⟩ := by
  refine ⟨?_, ?_, ?_⟩
  · exact (validate_first_error_and_400 exampleBody).1.mpr (by decide)
  · exact (validate_first_error_and_400 { exampleBody with email := "bad" }).2.2.2.2.1
      (by decide) (by decide) (by decide) (by decide)
  · exact (validate_first_error_and_400 exampleBody).2.2.2.2.2.2.2
      {} (fun s => s) 0 "r" failOutcome { body := { exampleBody with email := "bad" } } []
      "Adresa de email nu este validă." (by decide) (by decide) (by decide)

/-- Truthiness of a non-empty supplied string. -/
theorem strTruthy_some_of_ne {e : String} (h : e ≠ "") : strTruthy (some e) = true := by
  unfold strTruthy
  rcases hb : e.isEmpty with _ | _
  · simp [hb]
  · exact absurd ((String.isEmpty_iff e).mp hb) h

/-- C6 (amended): every call to sendServerEvent that supplies a non-empty
eventId posts an event whose event_id is that identifier; trackLead passes its
eventId through unchanged, and the contact handler hands the body eventId to
trackLead, so the posted Lead event carries it; when no eventId is supplied a
fresh eventName_eventTime_random identifier is generated server-side. A
supplied empty string falls back to the generated id (see the counterexample). -/
theorem eventId_passthrough (env : Env) (sha : String → String) (nowMs : Int) (rand : String)
    (hpix : strTruthy env.FB_PIXEL_ID = true)
    (htok : strTruthy env.FB_ACCESS_TOKEN = true) :
    (∀ (a : SendServerEventArgs) (e : String), a.eventId = some e → e ≠ "" →
      ∃ ev, sendServerEvent env sha nowMs rand a = some ev ∧ ev.event_id = e)
    ∧ (∀ a : SendServerEventArgs, a.eventId = none →
      ∃ ev, sendServerEvent env sha nowMs rand a = some ev ∧
        ev.event_id = a.eventName ++ "_" ++ toString (Int.fdiv nowMs 1000) ++ "_" ++ rand)
    ∧ (∀ (t : TrackLeadArgs) (e : String), t.eventId = some e → e ≠ "" →
      ∃ ev, trackLead env sha nowMs rand t = some ev ∧ ev.event_id = e)
    ∧ (∀ (outcome : EmailSendOutcome) (req : RequestModel) (m : RateLimitMap) (e : String),
        (isRateLimited (extractIp req.xForwardedFor) nowMs m).1 = false →
        strTruthy req.body.website = false →
        validate req.body = none →
        emailSendFailed outcome = false →
        req.body.eventId = some e → e ≠ "" →
        ∃ ev, (POST_part007 env sha nowMs rand outcome req m).2.2 =
            [Effect.emailSend (part007EmailRequest env (sanitize req.body)),
             Effect.conversionPost ev]
          ∧ ev.event_id = e) := by
  refine ⟨?_, ?_, ?_, ?_⟩
  · intro a e hid hne
    obtain ⟨ev, hev, -, hidev⟩ := sendServerEvent_configured env sha nowMs rand a hpix htok
    refine ⟨ev, hev, ?_⟩
    rw [hidev, hid, if_pos (strTruthy_some_of_ne hne)]
    rfl
  · intro a hid
    obtain ⟨ev, hev, -, hidev⟩ := sendServerEvent_configured env sha nowMs rand a hpix htok
    refine ⟨ev, hev, ?_⟩
    rw [hidev, hid]
    rfl
  · intro t e hid hne
    obtain ⟨ev, hev, -, hidev⟩ := trackLead_configured env sha nowMs rand t hpix htok
    refine ⟨ev, hev, ?_⟩
    rw [hidev, hid, if_pos (strTruthy_some_of_ne hne)]
    rfl
  · intro outcome req m e hlim hbot hval hmail hid hne
    obtain ⟨ev, hev, -, hidev⟩ :=
      trackLead_configured env sha nowMs rand (part007TrackArgs env req (sanitize req.body))
        hpix htok
    refine ⟨ev, ?_, ?_⟩
    · rw [POST_part007_success env sha nowMs rand outcome req m hlim hbot hval hmail, hev]
    · rw [hidev]
      have : (part007TrackArgs env req (sanitize req.body)).eventId = some e := hid
      rw [this, if_pos (strTruthy_some_of_ne hne)]
      rfl

/-- Witness for C6 at a concrete body supplying eventId evt_42. -/
theorem eventId_passthrough_witness :
    ∃ ev, (POST_part007 fbEnv (fun s => s) 0 "r" okOutcome
        { body := { exampleBody with eventId := some "evt_42" } } []).2.2 =
      [Effect.emailSend (part007EmailRequest fbEnv
          (sanitize { exampleBody with eventId := some "evt_42" })),
       Effect.conversionPost ev]
      ∧ ev.event_id = "evt_42" :=
  (eventId_passthrough fbEnv (fun s => s) 0 "r" (by decide) (by decide)).2.2.2
    okOutcome { body := { exampleBody with eventId := some "evt_42" } } [] "evt_42"
    (by decide) (by decide) (by decide) (by decide) (by decide) (by decide)

/-- C6 counterexample: an eventId that is supplied but empty is not used; the
JS truthiness test replaces it with the generated identifier, so the posted
event id differs from the supplied one. -/
theorem eventId_empty_string_ignored :
    (sendServerEvent fbEnv (fun s => s) 0 "abc123def"
      { eventName := "Lead", eventSourceUrl := "https://miciicampioni.ro",
        userData := {}, eventId := some "" }).map ServerEvent.event_id
      = some "Lead_0_abc123def"
    ∧ ("Lead_0_abc123def" : String) ≠ "" := by
  exact ⟨rfl, by decide⟩

/-- C7 (amended): stripHtml deletes every tag span: its output contains no
remaining substring matching the tag regex and stripHtml is idempotent; the
name, email, phone and message fields placed in the outgoing email are the
stripHtml-and-trim images of the submitted fields, while the service field is
first resolved through the SERVICE_LABELS table and only falls back to the
stripHtml-and-trim image for unknown keys (see the counterexample). -/
theorem stripHtml_removes_all_tags (s : String) (b : ContactFormData) :
    containsTag (stripHtml s).toList = false
    ∧ stripHtml (stripHtml s) = stripHtml s
    ∧ (sanitize b).name = jsTrim (stripHtml b.name)
    ∧ (sanitize b).email = jsTrim (stripHtml b.email)
    ∧ (sanitize b).message = jsTrim (stripHtml b.message)
    ∧ (sanitize b).phone =
        (if strTruthy b.phone then some (jsTrim (stripHtml (b.phone.getD ""))) else none)
    ∧ (sanitize b).service =
        (if strTruthy b.service then
          some ((SERVICE_LABELS (b.service.getD "")).getD
            (jsTrim (stripHtml (b.service.getD ""))))
        else none) := by
  refine ⟨?_, ?_, rfl, rfl, rfl, rfl, rfl⟩
  · exact containsTag_stripHtmlList s.toList
  · show String.mk (stripHtmlList (String.mk (stripHtmlList s.toList)).toList) =
      String.mk (stripHtmlList s.toList)
    rw [show (String.mk (stripHtmlList s.toList)).toList = stripHtmlList s.toList from rfl,
      stripHtmlList_idem s.toList]

/-- C7 counterexample: for a known service key the email carries the label,
not the stripHtml-and-trim image of the submitted field. -/
theorem service_field_not_strip_trim_image :
    (sanitize { name := "Ana", email := "ana@mail.ro", message := "Buna",
                service := some "inot-copii" }).service = some "Înot Copii (3-12 ani)"
    ∧ jsTrim (stripHtml "inot-copii") = "inot-copii"
    ∧ (some "Înot Copii (3-12 ani)" : Option String) ≠ some "inot-copii" := by
  exact ⟨by decide, by decide, by decide⟩

/-- C9 (amended): the two handler versions are response-equivalent: for every
environment, request, rate-limit state and provider outcome they return the
same status and body and the same final rate-limit map; besides the email HTML
and the conversion tracking they also differ in the default sender address
(see the counterexample). -/
theorem handlers_response_equivalent (env : Env) (sha : String → String) (nowMs : Int)
    (rand : String) (outcome : EmailSendOutcome) (req : RequestModel) (m : RateLimitMap) :
    (POST_part007 env sha nowMs rand outcome req m).1 = (POST_route env nowMs outcome req m).1
    ∧ (POST_part007 env sha nowMs rand outcome req m).2.1 =
        (POST_route env nowMs outcome req m).2.1 := by
  unfold POST_part007 POST_route
  by_cases h1 : (isRateLimited (extractIp req.xForwardedFor) nowMs m).1 = true
  · simp [h1]
  · rw [Bool.not_eq_true] at h1
    by_cases h2 : strTruthy req.body.website = true
    · simp [h1, h2]
    · rw [Bool.not_eq_true] at h2
      rcases hv : validate req.body with _ | e
      · by_cases h3 : emailSendFailed outcome = true
        · simp [h1, h2, hv, h3]
        · rw [Bool.not_eq_true] at h3
          simp [h1, h2, hv, h3]
      · simp [h1, h2, hv]

/-- Projection helper: the sender address of an email effect. -/
def effectSender : Effect → String
  | .emailSend r => r.fromField
  | .conversionPost _ => ""

/-- C9 counterexample: with CONTACT_EMAIL_FROM unset, the emails the two
versions send differ in the sender address, not only in the HTML and the
tracking side effect. -/
theorem handlers_differ_in_default_sender :
    ((POST_part007 {} (fun s => s) 0 "r" okOutcome exampleReq []).2.2.map effectSender)
      = ["Micii Campioni Website <noreply@launchinto.space>"]
    ∧ ((POST_route {} 0 okOutcome exampleReq []).2.2.map effectSender)
      = ["Micii Campioni Website <website@miciicampioni.ro>"]
    ∧ ("Micii Campioni Website <noreply@launchinto.space>" : String)
      ≠ "Micii Campioni Website <website@miciicampioni.ro>" := by
  refine ⟨rfl, rfl, by decide⟩

end Micii
